import Mathlib

/-!
Verification development for the slack-issue-agent repository.

The repository ships the AWS CDK infrastructure for an inbound Slack
event gateway (cdk/lib/lambda-stack.ts) together with design documents.
The Lambda handler package referenced by the stack
(lambda/slack-events-handler: handler.py, slack_signature.py) is declared
and configured by the CDK code but its Python sources are not part of this
checkout, so the verification gateway pipeline below is modelled from the
design specification, while the deployment configuration (concurrency
ceiling, timeout, function URL, IAM policies, environment) is embedded
directly from cdk/lib/lambda-stack.ts.
-/

namespace SlackGateway

/-- Modelled from the spec: an inbound HTTP request as seen by the gateway.
The raw body is kept as a string of bytes, the two Slack headers are
optional; a timestamp header that is absent or unparseable is modelled as
none. -/
structure InboundRequest where
  body : String
  signatureHeader : Option String
  timestampHeader : Option Int
deriving Repr, DecidableEq

/-- Modelled from the spec: result of the Signature Verifier on one request. -/
inductive VerifyResult where
  | valid
  | invalidSignature
  | staleRequest
  | malformedRequest
deriving Repr, DecidableEq

/-- Modelled from the spec: startup-time configuration surface of the
gateway: which secret to fetch, how to reach the runtime, the admission
ceiling, the replay window and the backend call budget. -/
structure GatewayConfig where
  secretName : String
  backendRef : String
  maxConcurrency : Nat
  maxSkewSeconds : Nat
  forwardTimeoutMs : Nat
deriving Repr, DecidableEq

/-- Modelled from the spec: the design-default configuration values
(ceiling 10, skew 5 minutes, sub-timeout 85s below the 90s deadline). -/
def defaultGatewayConfig : GatewayConfig :=
  { secretName := "/slack-issue-agent/slack/signing-secret"
    backendRef := "AGENTCORE_RUNTIME_ARN"
    maxConcurrency := 10
    maxSkewSeconds := 300
    forwardTimeoutMs := 85000 }

/-- Modelled from the spec: the fixed scheme identifier of the signing
scheme (the Slack convention). -/
def schemeVersion : String := "v0"

/-- Modelled from the spec: the canonical signed payload, a deterministic
string built as version, timestamp and raw body joined by colons. -/
def canonicalString (version : String) (ts : Int) (body : String) : String :=
  version ++ ":" ++ toString ts ++ ":" ++ body

/-- Modelled from the spec: the signature the gateway expects for a body at
a timestamp: the keyed hash of the canonical string under the signing
secret. The keyed hash itself (HMAC with a strong hash function) is kept
abstract as a parameter, since the spec fixes only its interface. -/
def expectedSignature (mac : String → String → String) (secret : String)
    (ts : Int) (body : String) : String :=
  mac secret (canonicalString schemeVersion ts body)

/-- Modelled from the spec: one pass of the constant-time comparison over
two already length-matched byte lists. It scans every position, folding the
running equality bit, and counts one time step per position, never exiting
early at the first mismatch. -/
def ctEqAux : List Char → List Char → Bool → Bool × Nat
  | [], [], acc => (acc, 0)
  | x :: xs, y :: ys, acc =>
    let r := ctEqAux xs ys (acc && decide (x = y))
    (r.fst, r.snd + 1)
  | _, _, _ => (false, 0)

/-- Modelled from the spec: constant-time equality of two byte strings with
an explicit time count: one step for the length check, then one step per
scanned position when the lengths agree. -/
def ctEq (a b : List Char) : Bool × Nat :=
  if a.length = b.length then
    let r := ctEqAux a b true
    (r.fst, r.snd + 1)
  else (false, 1)

/-- Modelled from the spec: the Signature Verifier. A missing signature or
timestamp header fails closed as MalformedRequest; the freshness check runs
first and rejects with StaleRequest when the timestamp is further than
maxSkewSeconds from the verifier clock, before any keyed hash is computed;
otherwise the keyed hash of the canonical string is compared against the
signature header with the constant-time comparison. -/
def verifySignature (mac : String → String → String) (secret : String)
    (maxSkewSeconds : Nat) (now : Int) (req : InboundRequest) : VerifyResult :=
  match req.timestampHeader, req.signatureHeader with
  | none, _ => .malformedRequest
  | some _, none => .malformedRequest
  | some ts, some sig =>
    if maxSkewSeconds < (now - ts).natAbs then
      .staleRequest
    else if (ctEq sig.data (expectedSignature mac secret ts req.body).data).fst then
      .valid
    else
      .invalidSignature

/-- Modelled from the spec: the tagged union of verified event kinds the
Event Router distinguishes: a handshake challenge carrying its token, an
actionable event carrying its event identifier and backend payload, and an
unsupported or irrelevant kind. -/
inductive SlackEvent where
  | challenge (token : String)
  | actionable (eventId : String) (payload : String)
  | unsupported
deriving Repr, DecidableEq

/-- Modelled from the spec: the structured result of a backend invocation. -/
inductive ForwardResult where
  | success (body : String)
  | backendTimeout
  | backendError (detail : String)
  | malformedResponse
deriving Repr, DecidableEq

/-- Modelled from the spec: the classification of one fully handled request,
the input of the response mapping. -/
inductive Outcome where
  | acknowledged
  | challengeEcho (token : String)
  | ignorable
  | duplicateDelivery
  | invalidSignature
  | staleRequest
  | malformedRequest
  | malformedPayload
  | secretUnavailable
  | admissionRejected
  | internalError
deriving Repr, DecidableEq

/-- Modelled from the spec: the HTTP status is a total function of the
classification: 200 for every successfully classified outcome, 4xx for the
verification failures, 503 for admission-control rejection, 500 for
unexpected internal faults; secret-retrieval failure is surfaced as an
internal dependency fault, distinct from the authentication failure. -/
def statusOf : Outcome → Nat
  | .acknowledged => 200
  | .challengeEcho _ => 200
  | .ignorable => 200
  | .duplicateDelivery => 200
  | .invalidSignature => 401
  | .staleRequest => 401
  | .malformedRequest => 400
  | .malformedPayload => 200
  | .secretUnavailable => 500
  | .admissionRejected => 503
  | .internalError => 500

/-- Modelled from the spec: the response body: a handshake echoes the
challenge token verbatim, every other outcome gets a minimal
acknowledgement body with no internal detail. -/
def bodyOf : Outcome → String
  | .challengeEcho token => token
  | _ => "ok"

/-- Modelled from the spec: the HTTP-level response the gateway emits. -/
structure Response where
  status : Nat
  body : String
deriving Repr, DecidableEq

/-- Modelled from the spec: the response for a classified outcome. -/
def respond (o : Outcome) : Response :=
  { status := statusOf o, body := bodyOf o }

/-- Modelled from the spec: the Event Router decision on a verified body:
parse failures are MalformedPayload, a challenge is answered directly, an
actionable event whose identifier was already handled inside the dedup
window is a duplicate delivery, an unknown kind is ignorable. -/
inductive RouteDecision where
  | respondChallenge (token : String)
  | forward (eventId : String) (payload : String)
  | ignore
  | duplicate
  | malformedPayload
deriving Repr, DecidableEq

/-- Modelled from the spec: the Event Router, parameterized by the envelope
parser and the set of already handled event identifiers. -/
def routeEvent (parse : String → Option SlackEvent) (seen : List String)
    (body : String) : RouteDecision :=
  match parse body with
  | none => .malformedPayload
  | some (.challenge token) => .respondChallenge token
  | some (.actionable eventId payload) =>
    if eventId ∈ seen then .duplicate else .forward eventId payload
  | some .unsupported => .ignore

/-- Modelled from the spec: backend failures are surfaced to the caller as
a generic acknowledgement; the diagnostic detail is not echoed back. -/
def forwardOutcome : ForwardResult → Outcome
  | .success _ => .acknowledged
  | .backendTimeout => .acknowledged
  | .backendError _ => .acknowledged
  | .malformedResponse => .acknowledged

/-- Modelled from the spec: the Gateway Entrypoint handling one request to
completion: secret retrieval, signature verification, routing, at most one
forwarding. It returns the emitted response, the updated dedup set, and the
number of backend invocations performed for this request. -/
def handleRequest (mac : String → String → String)
    (parse : String → Option SlackEvent)
    (invoke : String → ForwardResult)
    (cfg : GatewayConfig) (secret : Option String) (now : Int)
    (seen : List String) (req : InboundRequest) :
    Response × List String × Nat :=
  match secret with
  | none => (respond .secretUnavailable, seen, 0)
  | some s =>
    match verifySignature mac s cfg.maxSkewSeconds now req with
    | .malformedRequest => (respond .malformedRequest, seen, 0)
    | .staleRequest => (respond .staleRequest, seen, 0)
    | .invalidSignature => (respond .invalidSignature, seen, 0)
    | .valid =>
      match routeEvent parse seen req.body with
      | .malformedPayload => (respond .malformedPayload, seen, 0)
      | .respondChallenge token => (respond (.challengeEcho token), seen, 0)
      | .ignore => (respond .ignorable, seen, 0)
      | .duplicate => (respond .duplicateDelivery, seen, 0)
      | .forward eventId payload =>
        (respond (forwardOutcome (invoke payload)), eventId :: seen, 1)

/-- Modelled from the spec: the state of the admission-control counter of
the Gateway Entrypoint, together with ghost counters of admitted and
rejected requests. -/
structure AdmState where
  inFlight : Nat
  admitted : Nat
  rejected : Nat
deriving Repr, DecidableEq

/-- Modelled from the spec: the two observable admission events: a request
arriving and an in-flight request completing. -/
inductive AdmEvent where
  | arrive
  | complete
deriving Repr, DecidableEq

/-- Modelled from the spec: the initial admission state, with no request in
flight. -/
def admInit : AdmState := { inFlight := 0, admitted := 0, rejected := 0 }

/-- Modelled from the spec: one admission-control transition. An arrival
below the ceiling is admitted; an arrival at the ceiling is rejected
immediately, leaving the in-flight count unchanged, never queued. A
completion releases one slot. -/
def admStep (ceiling : Nat) (s : AdmState) : AdmEvent → AdmState
  | .arrive =>
    if s.inFlight < ceiling then
      { s with inFlight := s.inFlight + 1, admitted := s.admitted + 1 }
    else
      { s with rejected := s.rejected + 1 }
  | .complete => { s with inFlight := s.inFlight - 1 }

/-- Modelled from the spec: the admission state after a trace of arrival
and completion events. -/
def admRun (ceiling : Nat) (s : AdmState) (tr : List AdmEvent) : AdmState :=
  tr.foldl (admStep ceiling) s

/-- Modelled from the spec: the Runtime Forwarder under an explicit time
budget. Given its own timeout, the backend delay and the backend result, it
returns the classified result together with the elapsed time: the backend
answer when it arrives within the budget, otherwise a timeout
classification exactly at the budget, never later. -/
def forwardWithTimeout (timeoutMs backendDelayMs : Nat)
    (backendResult : ForwardResult) : ForwardResult × Nat :=
  if backendDelayMs ≤ timeoutMs then (backendResult, backendDelayMs)
  else (.backendTimeout, timeoutMs)

/-- A concrete keyed-hash model used only to evaluate the development on
concrete inputs: it tags the message with the secret. -/
def macModel (secret msg : String) : String := secret ++ "|" ++ msg

/-- A second concrete keyed-hash model, distinguishable from macModel, used
to exhibit independence from the keyed hash on concrete inputs. -/
def macModel2 (secret msg : String) : String := msg ++ "&" ++ secret

/-- A concrete envelope-parser model used only to evaluate the development
on concrete inputs: three recognizable bodies, everything else
unparseable. -/
def parseModel (body : String) : Option SlackEvent :=
  if body = "url_verification" then some (.challenge "tok123")
  else if body = "mention" then some (.actionable "Ev1" "hello")
  else if body = "irrelevant" then some .unsupported
  else none

/-- A concrete backend model used only to evaluate the development on
concrete inputs. -/
def invokeModel (_payload : String) : ForwardResult := .success "done"

end SlackGateway

namespace LambdaStack

/-- One IAM policy statement, as built by addToPolicy in
cdk/lib/lambda-stack.ts: effect, actions, resources and the StringEquals
conditions, each condition a pair of condition key and value. -/
structure PolicyStatement where
  effect : String
  actions : List String
  resources : List String
  stringEqualsConditions : List (String × String)
deriving Repr, DecidableEq

/-- The AgentCore invocation statement of the Lambda role, embedded from
cdk/lib/lambda-stack.ts. -/
def agentCorePolicy (agentRuntimeArn : String) : PolicyStatement :=
  { effect := "ALLOW"
    actions := ["bedrock-agentcore:InvokeAgentRuntime"]
    resources := [agentRuntimeArn, agentRuntimeArn ++ "/*"]
    stringEqualsConditions := [] }

/-- The SSM Parameter Store read statement of the Lambda role, embedded
from cdk/lib/lambda-stack.ts: reads limited to the slack-issue-agent
parameter path. -/
def ssmPolicy (region account : String) : PolicyStatement :=
  { effect := "ALLOW"
    actions := ["ssm:GetParameter", "ssm:GetParameters"]
    resources :=
      ["arn:aws:ssm:" ++ region ++ ":" ++ account ++
        ":parameter/slack-issue-agent/*"]
    stringEqualsConditions := [] }

/-- The KMS decrypt statement of the Lambda role, embedded from
cdk/lib/lambda-stack.ts: decryption allowed only via the SSM service of the
same region. -/
def kmsPolicy (region account : String) : PolicyStatement :=
  { effect := "ALLOW"
    actions := ["kms:Decrypt"]
    resources := ["arn:aws:kms:" ++ region ++ ":" ++ account ++ ":key/*"]
    stringEqualsConditions :=
      [("kms:ViaService", "ssm." ++ region ++ ".amazonaws.com")] }

/-- The three inline statements attached to the Lambda execution role in
cdk/lib/lambda-stack.ts, in source order. -/
def lambdaRolePolicies (region account agentRuntimeArn : String) :
    List PolicyStatement :=
  [agentCorePolicy agentRuntimeArn, ssmPolicy region account,
    kmsPolicy region account]

/-- The Lambda function configuration, embedded from the slackEventsHandler
construct of cdk/lib/lambda-stack.ts. -/
structure FunctionConfig where
  runtime : String
  handler : String
  timeoutSeconds : Nat
  memorySize : Nat
  reservedConcurrentExecutions : Nat
  environment : List (String × String)
deriving Repr, DecidableEq

/-- The slackEventsHandler Lambda function of cdk/lib/lambda-stack.ts:
Python 3.12, 90 second timeout, 512 MB, a reserved concurrency of 10, and
an environment of exactly the runtime ARN and the log level. -/
def slackEventsHandler (agentRuntimeArn : String) : FunctionConfig :=
  { runtime := "python3.12"
    handler := "handler.lambda_handler"
    timeoutSeconds := 90
    memorySize := 512
    reservedConcurrentExecutions := 10
    environment :=
      [("AGENTCORE_RUNTIME_ARN", agentRuntimeArn), ("LOG_LEVEL", "INFO")] }

/-- CORS options of the function URL, embedded from
cdk/lib/lambda-stack.ts. -/
structure CorsOptions where
  allowedOrigins : List String
  allowedMethods : List String
  allowedHeaders : List String
deriving Repr, DecidableEq

/-- Function URL options, embedded from cdk/lib/lambda-stack.ts. -/
structure FunctionUrlOptions where
  authType : String
  cors : CorsOptions
deriving Repr, DecidableEq

/-- The function URL attached to the handler in cdk/lib/lambda-stack.ts:
no transport-layer authentication, POST only, and only the three headers
the signature scheme needs. -/
def functionUrl : FunctionUrlOptions :=
  { authType := "NONE"
    cors :=
      { allowedOrigins := ["*"]
        allowedMethods := ["POST"]
        allowedHeaders :=
          ["Content-Type", "x-slack-signature", "x-slack-request-timestamp"] } }

end LambdaStack

namespace SlackGateway

/-- The scan of the constant-time comparison takes exactly one step per
position when the lengths agree. -/
theorem ctEqAux_snd : ∀ (a b : List Char) (acc : Bool), a.length = b.length →
    (ctEqAux a b acc).snd = a.length := by
  intro a
  induction a with
  | nil =>
    intro b acc h
    cases b with
    | nil => rfl
    | cons y ys => exact absurd h (by simp)
  | cons x xs ih =>
    intro b acc h
    cases b with
    | nil => exact absurd h (by simp)
    | cons y ys =>
      have hlen : xs.length = ys.length := by simpa using h
      simp only [ctEqAux, List.length_cons]
      rw [ih ys (acc && decide (x = y)) hlen]

/-- The scan of the constant-time comparison computes the conjunction of
the accumulator with elementwise equality when the lengths agree. -/
theorem ctEqAux_fst : ∀ (a b : List Char) (acc : Bool), a.length = b.length →
    (ctEqAux a b acc).fst = (acc && decide (a = b)) := by
  intro a
  induction a with
  | nil =>
    intro b acc h
    cases b with
    | nil => simp [ctEqAux]
    | cons y ys => exact absurd h (by simp)
  | cons x xs ih =>
    intro b acc h
    cases b with
    | nil => exact absurd h (by simp)
    | cons y ys =>
      have hlen : xs.length = ys.length := by simpa using h
      simp only [ctEqAux]
      rw [ih ys (acc && decide (x = y)) hlen]
      by_cases hx : x = y <;> by_cases hxs : xs = ys <;> simp [hx, hxs]

/-- Functional correctness of the constant-time comparison: it answers true
exactly on equal inputs. -/
theorem ctEq_fst_iff (a b : List Char) : (ctEq a b).fst = true ↔ a = b := by
  unfold ctEq
  by_cases h : a.length = b.length
  · rw [if_pos h]
    simp only [ctEqAux_fst a b true h, Bool.true_and, decide_eq_true_eq]
  · rw [if_neg h]
    constructor
    · intro hf
      exact absurd hf (by simp)
    · intro he
      exact absurd (congrArg List.length he) h

/-- The constant-time comparison answers true on two strings exactly when
the strings are equal. -/
theorem ctEq_string_iff (s t : String) : (ctEq s.data t.data).fst = true ↔ s = t := by
  rw [ctEq_fst_iff]
  exact ⟨fun h => String.ext h, fun h => h ▸ rfl⟩

/-- Two-run timing equivalence of the constant-time comparison: the time
count depends only on the two lengths, never on the contents. -/
theorem ctEq_snd_eq (a b c d : List Char) (h1 : a.length = c.length)
    (h2 : b.length = d.length) : (ctEq a b).snd = (ctEq c d).snd := by
  unfold ctEq
  by_cases h : a.length = b.length
  · rw [if_pos h, if_pos (by omega)]
    simp only
    rw [ctEqAux_snd a b true h, ctEqAux_snd c d true (by omega)]
    omega
  · rw [if_neg h, if_neg (by omega)]

/-- A request without a timestamp header fails closed as malformed. -/
theorem verifySignature_no_timestamp (mac : String → String → String)
    (secret : String) (maxSkew : Nat) (now : Int) (req : InboundRequest)
    (h : req.timestampHeader = none) :
    verifySignature mac secret maxSkew now req = .malformedRequest := by
  obtain ⟨body, sigh, tsh⟩ := req
  cases tsh with
  | none => rfl
  | some ts => exact absurd h (by simp)

/-- A request without a signature header fails closed as malformed. -/
theorem verifySignature_no_signature (mac : String → String → String)
    (secret : String) (maxSkew : Nat) (now : Int) (req : InboundRequest)
    (h : req.signatureHeader = none) :
    verifySignature mac secret maxSkew now req = .malformedRequest := by
  obtain ⟨body, sigh, tsh⟩ := req
  cases sigh with
  | none =>
    cases tsh with
    | none => rfl
    | some ts => rfl
  | some sig => exact absurd h (by simp)

/-- A request whose timestamp is further than the skew bound from the
verifier clock is rejected as stale. -/
theorem verifySignature_stale (mac : String → String → String)
    (secret : String) (maxSkew : Nat) (now ts : Int) (sig body : String)
    (h : maxSkew < (now - ts).natAbs) :
    verifySignature mac secret maxSkew now
      { body := body, signatureHeader := some sig, timestampHeader := some ts } =
      .staleRequest := by
  simp [verifySignature, h]

/-- On a fresh request with both headers, verification succeeds exactly
when the signature header equals the keyed hash of the canonical string. -/
theorem verifySignature_valid_iff (mac : String → String → String)
    (secret : String) (maxSkew : Nat) (now ts : Int) (sig body : String)
    (hfresh : ¬ maxSkew < (now - ts).natAbs) :
    verifySignature mac secret maxSkew now
      { body := body, signatureHeader := some sig, timestampHeader := some ts } =
      .valid ↔ sig = expectedSignature mac secret ts body := by
  simp only [verifySignature, if_neg hfresh]
  by_cases hc : sig = expectedSignature mac secret ts body
  · rw [if_pos ((ctEq_string_iff _ _).2 hc)]
    simp [hc]
  · rw [if_neg (fun h => hc ((ctEq_string_iff _ _).1 h))]
    simp [hc]

/-- On a fresh request with both headers, a signature header that differs
from the keyed hash of the canonical string fails as InvalidSignature. -/
theorem verifySignature_invalid (mac : String → String → String)
    (secret : String) (maxSkew : Nat) (now ts : Int) (sig body : String)
    (hfresh : ¬ maxSkew < (now - ts).natAbs)
    (hne : sig ≠ expectedSignature mac secret ts body) :
    verifySignature mac secret maxSkew now
      { body := body, signatureHeader := some sig, timestampHeader := some ts } =
      .invalidSignature := by
  simp only [verifySignature, if_neg hfresh]
  rw [if_neg (fun h => hne ((ctEq_string_iff _ _).1 h))]

/-- The gateway without a retrievable secret answers SecretUnavailable and
performs no forwarding. -/
theorem handleRequest_secret_none (mac : String → String → String)
    (parse : String → Option SlackEvent) (invoke : String → ForwardResult)
    (cfg : GatewayConfig) (now : Int) (seen : List String)
    (req : InboundRequest) :
    handleRequest mac parse invoke cfg none now seen req =
      (respond .secretUnavailable, seen, 0) := rfl

/-- The gateway on a request failing verification with InvalidSignature. -/
theorem handleRequest_invalid (mac : String → String → String)
    (parse : String → Option SlackEvent) (invoke : String → ForwardResult)
    (cfg : GatewayConfig) (s : String) (now : Int) (seen : List String)
    (req : InboundRequest)
    (hv : verifySignature mac s cfg.maxSkewSeconds now req = .invalidSignature) :
    handleRequest mac parse invoke cfg (some s) now seen req =
      (respond .invalidSignature, seen, 0) := by
  simp [handleRequest, hv]

/-- The gateway on a request failing verification with StaleRequest. -/
theorem handleRequest_stale (mac : String → String → String)
    (parse : String → Option SlackEvent) (invoke : String → ForwardResult)
    (cfg : GatewayConfig) (s : String) (now : Int) (seen : List String)
    (req : InboundRequest)
    (hv : verifySignature mac s cfg.maxSkewSeconds now req = .staleRequest) :
    handleRequest mac parse invoke cfg (some s) now seen req =
      (respond .staleRequest, seen, 0) := by
  simp [handleRequest, hv]

/-- The gateway on a request failing verification with MalformedRequest. -/
theorem handleRequest_malformed (mac : String → String → String)
    (parse : String → Option SlackEvent) (invoke : String → ForwardResult)
    (cfg : GatewayConfig) (s : String) (now : Int) (seen : List String)
    (req : InboundRequest)
    (hv : verifySignature mac s cfg.maxSkewSeconds now req = .malformedRequest) :
    handleRequest mac parse invoke cfg (some s) now seen req =
      (respond .malformedRequest, seen, 0) := by
  simp [handleRequest, hv]

/-- The gateway on a verified handshake challenge: it echoes the token and
does not forward. -/
theorem handleRequest_challenge (mac : String → String → String)
    (parse : String → Option SlackEvent) (invoke : String → ForwardResult)
    (cfg : GatewayConfig) (s : String) (now : Int) (seen : List String)
    (req : InboundRequest) (token : String)
    (hv : verifySignature mac s cfg.maxSkewSeconds now req = .valid)
    (hp : parse req.body = some (.challenge token)) :
    handleRequest mac parse invoke cfg (some s) now seen req =
      (respond (.challengeEcho token), seen, 0) := by
  simp [handleRequest, hv, routeEvent, hp]

/-- The gateway on a verified unsupported event: acknowledged, not
forwarded. -/
theorem handleRequest_unsupported (mac : String → String → String)
    (parse : String → Option SlackEvent) (invoke : String → ForwardResult)
    (cfg : GatewayConfig) (s : String) (now : Int) (seen : List String)
    (req : InboundRequest)
    (hv : verifySignature mac s cfg.maxSkewSeconds now req = .valid)
    (hp : parse req.body = some .unsupported) :
    handleRequest mac parse invoke cfg (some s) now seen req =
      (respond .ignorable, seen, 0) := by
  simp [handleRequest, hv, routeEvent, hp]

/-- The gateway on a verified unparseable body: MalformedPayload, not
forwarded. -/
theorem handleRequest_noparse (mac : String → String → String)
    (parse : String → Option SlackEvent) (invoke : String → ForwardResult)
    (cfg : GatewayConfig) (s : String) (now : Int) (seen : List String)
    (req : InboundRequest)
    (hv : verifySignature mac s cfg.maxSkewSeconds now req = .valid)
    (hp : parse req.body = none) :
    handleRequest mac parse invoke cfg (some s) now seen req =
      (respond .malformedPayload, seen, 0) := by
  simp [handleRequest, hv, routeEvent, hp]

/-- The gateway on a verified actionable event not yet handled: it forwards
exactly once and records the event identifier. -/
theorem handleRequest_forward (mac : String → String → String)
    (parse : String → Option SlackEvent) (invoke : String → ForwardResult)
    (cfg : GatewayConfig) (s : String) (now : Int) (seen : List String)
    (req : InboundRequest) (eventId payload : String)
    (hv : verifySignature mac s cfg.maxSkewSeconds now req = .valid)
    (hp : parse req.body = some (.actionable eventId payload))
    (hfresh : eventId ∉ seen) :
    handleRequest mac parse invoke cfg (some s) now seen req =
      (respond (forwardOutcome (invoke payload)), eventId :: seen, 1) := by
  simp [handleRequest, hv, routeEvent, hp, hfresh]

/-- The gateway on a verified actionable event already handled inside the
dedup window: a duplicate delivery, acknowledged without forwarding. -/
theorem handleRequest_duplicate (mac : String → String → String)
    (parse : String → Option SlackEvent) (invoke : String → ForwardResult)
    (cfg : GatewayConfig) (s : String) (now : Int) (seen : List String)
    (req : InboundRequest) (eventId payload : String)
    (hv : verifySignature mac s cfg.maxSkewSeconds now req = .valid)
    (hp : parse req.body = some (.actionable eventId payload))
    (hseen : eventId ∈ seen) :
    handleRequest mac parse invoke cfg (some s) now seen req =
      (respond .duplicateDelivery, seen, 0) := by
  simp [handleRequest, hv, routeEvent, hp, hseen]

/-- The admission-control counter never exceeds the ceiling along any trace
of arrivals and completions. -/
theorem admRun_inFlight_le (ceiling : Nat) :
    ∀ (tr : List AdmEvent) (s : AdmState), s.inFlight ≤ ceiling →
      (admRun ceiling s tr).inFlight ≤ ceiling := by
  intro tr
  induction tr with
  | nil => intro s h; exact h
  | cons e tr ih =>
    intro s h
    have hstep : (admStep ceiling s e).inFlight ≤ ceiling := by
      cases e with
      | arrive =>
        by_cases hlt : s.inFlight < ceiling
        · simp only [admStep, if_pos hlt]
          omega
        · simp only [admStep, if_neg hlt]
          exact h
      | complete =>
        simp only [admStep]
        omega
    exact ih (admStep ceiling s e) hstep

end SlackGateway

namespace SlackGateway

/-- Claim C1: the backend runtime is never invoked unless the request has
passed both the signature check and the freshness check. A request failing
verification is answered identically for every router and every backend,
with forwarding count 0, so no InboundRequest reaches the Event Router
without passing both checks, and no ForwardRequest is issued for an event
the router classifies as ignorable. A request whose signature header
differs in any byte from the correctly signed one, and a request whose body
differs in any byte (the keyed hash separating the two canonical strings),
fail with InvalidSignature and its forwarding count is 0. -/
theorem C1_verification_gates_forwarding :
    (∀ (mac : String → String → String) (parse parse2 : String → Option SlackEvent)
      (invoke invoke2 : String → ForwardResult) (cfg : GatewayConfig)
      (s : String) (now : Int) (seen : List String) (req : InboundRequest),
      verifySignature mac s cfg.maxSkewSeconds now req ≠ .valid →
      handleRequest mac parse invoke cfg (some s) now seen req =
        handleRequest mac parse2 invoke2 cfg (some s) now seen req ∧
      (handleRequest mac parse invoke cfg (some s) now seen req).snd.snd = 0) ∧
    (∀ (mac : String → String → String) (parse : String → Option SlackEvent)
      (invoke : String → ForwardResult) (cfg : GatewayConfig)
      (s : String) (now : Int) (seen : List String) (req : InboundRequest),
      parse req.body = some .unsupported →
      (handleRequest mac parse invoke cfg (some s) now seen req).snd.snd = 0) ∧
    (∀ (mac : String → String → String) (cfg : GatewayConfig) (s : String)
      (now ts : Int) (body sig : String),
      ¬ cfg.maxSkewSeconds < (now - ts).natAbs →
      sig ≠ expectedSignature mac s ts body →
      verifySignature mac s cfg.maxSkewSeconds now
          { body := body, signatureHeader := some sig, timestampHeader := some ts } =
        .invalidSignature ∧
      ∀ (parse : String → Option SlackEvent) (invoke : String → ForwardResult)
        (seen : List String),
        (handleRequest mac parse invoke cfg (some s) now seen
            { body := body, signatureHeader := some sig,
              timestampHeader := some ts }).snd.snd = 0) ∧
    (∀ (mac : String → String → String) (cfg : GatewayConfig) (s : String)
      (now ts : Int) (body body2 : String),
      ¬ cfg.maxSkewSeconds < (now - ts).natAbs →
      expectedSignature mac s ts body2 ≠ expectedSignature mac s ts body →
      verifySignature mac s cfg.maxSkewSeconds now
          { body := body2, signatureHeader := some (expectedSignature mac s ts body),
            timestampHeader := some ts } = .invalidSignature) := by
  refine ⟨?_, ?_, ?_, ?_⟩
  · intro mac parse parse2 invoke invoke2 cfg s now seen req hne
    cases hv : verifySignature mac s cfg.maxSkewSeconds now req with
    | valid => exact absurd hv hne
    | invalidSignature =>
      rw [handleRequest_invalid mac parse invoke cfg s now seen req hv,
        handleRequest_invalid mac parse2 invoke2 cfg s now seen req hv]
      exact ⟨rfl, rfl⟩
    | staleRequest =>
      rw [handleRequest_stale mac parse invoke cfg s now seen req hv,
        handleRequest_stale mac parse2 invoke2 cfg s now seen req hv]
      exact ⟨rfl, rfl⟩
    | malformedRequest =>
      rw [handleRequest_malformed mac parse invoke cfg s now seen req hv,
        handleRequest_malformed mac parse2 invoke2 cfg s now seen req hv]
      exact ⟨rfl, rfl⟩
  · intro mac parse invoke cfg s now seen req hp
    cases hv : verifySignature mac s cfg.maxSkewSeconds now req with
    | valid =>
      rw [handleRequest_unsupported mac parse invoke cfg s now seen req hv hp]
    | invalidSignature =>
      rw [handleRequest_invalid mac parse invoke cfg s now seen req hv]
    | staleRequest =>
      rw [handleRequest_stale mac parse invoke cfg s now seen req hv]
    | malformedRequest =>
      rw [handleRequest_malformed mac parse invoke cfg s now seen req hv]
  · intro mac cfg s now ts body sig hfresh hne
    have hv := verifySignature_invalid mac s cfg.maxSkewSeconds now ts sig body hfresh hne
    refine ⟨hv, ?_⟩
    intro parse invoke seen
    rw [handleRequest_invalid mac parse invoke cfg s now seen _ hv]
  · intro mac cfg s now ts body body2 hfresh hmacne
    exact verifySignature_invalid mac s cfg.maxSkewSeconds now ts
      (expectedSignature mac s ts body) body2 hfresh (Ne.symm hmacne)

/-- Concrete evaluation of claim C1: a request with a wrong signature
header is classified InvalidSignature and never forwarded. -/
theorem C1_witness :
    verifySignature macModel "sec" defaultGatewayConfig.maxSkewSeconds 0
        { body := "body", signatureHeader := some "xx", timestampHeader := some 0 } =
      .invalidSignature ∧
    (handleRequest macModel parseModel invokeModel defaultGatewayConfig (some "sec") 0 []
        { body := "body", signatureHeader := some "xx",
          timestampHeader := some 0 }).snd.snd = 0 := by
  have h := C1_verification_gates_forwarding.2.2.1 macModel defaultGatewayConfig
    "sec" 0 0 "body" "xx" (by decide) (by decide)
  exact ⟨h.1, h.2 parseModel invokeModel []⟩

/-- Claim C2: freshness is checked before any cryptographic work: a request
whose timestamp differs from the verifier clock by more than the maximum
skew (default 5 minutes, 300 seconds) is rejected as StaleRequest for every
signature header, and the result does not depend on the keyed hash or on
the secret, so no HMAC is computed for such a request. -/
theorem C2_freshness_before_crypto :
    defaultGatewayConfig.maxSkewSeconds = 300 ∧
    ∀ (mac mac2 : String → String → String) (secret secret2 : String)
      (maxSkew : Nat) (now ts : Int) (sig body : String),
      maxSkew < (now - ts).natAbs →
      verifySignature mac secret maxSkew now
          { body := body, signatureHeader := some sig, timestampHeader := some ts } =
        .staleRequest ∧
      verifySignature mac secret maxSkew now
          { body := body, signatureHeader := some sig, timestampHeader := some ts } =
        verifySignature mac2 secret2 maxSkew now
          { body := body, signatureHeader := some sig, timestampHeader := some ts } := by
  refine ⟨rfl, ?_⟩
  intro mac mac2 secret secret2 maxSkew now ts sig body h
  exact ⟨verifySignature_stale mac secret maxSkew now ts sig body h,
    (verifySignature_stale mac secret maxSkew now ts sig body h).trans
      (verifySignature_stale mac2 secret2 maxSkew now ts sig body h).symm⟩

/-- Concrete evaluation of claim C2: a request 1000 seconds old is stale
under a 300 second skew, under two different keyed hashes and secrets. -/
theorem C2_witness :
    verifySignature macModel "sec" 300 1000
        { body := "b", signatureHeader := some "sig", timestampHeader := some 0 } =
      .staleRequest ∧
    verifySignature macModel "sec" 300 1000
        { body := "b", signatureHeader := some "sig", timestampHeader := some 0 } =
      verifySignature macModel2 "other" 300 1000
        { body := "b", signatureHeader := some "sig", timestampHeader := some 0 } :=
  C2_freshness_before_crypto.2 macModel macModel2 "sec" "other" 300 1000 0 "sig" "b"
    (by decide)

/-- Claim C3: on a fresh request with both headers the verifier accepts
exactly when the signature header equals the keyed hash of the canonical
string version, timestamp and raw body joined by colons, under the current
signing secret; and the comparison is constant time: its running time is a
function of the input lengths only, so two runs on same-length inputs take
the same time regardless of the position of the first differing byte. -/
theorem C3_hmac_canonical_and_constant_time :
    (∀ (mac : String → String → String) (secret : String) (maxSkew : Nat)
      (now ts : Int) (sig body : String),
      ¬ maxSkew < (now - ts).natAbs →
      (verifySignature mac secret maxSkew now
          { body := body, signatureHeader := some sig, timestampHeader := some ts } =
        .valid ↔
        sig = mac secret (schemeVersion ++ ":" ++ toString ts ++ ":" ++ body))) ∧
    (∀ a b c d : List Char, a.length = c.length → b.length = d.length →
      (ctEq a b).snd = (ctEq c d).snd) := by
  constructor
  · intro mac secret maxSkew now ts sig body hfresh
    exact verifySignature_valid_iff mac secret maxSkew now ts sig body hfresh
  · exact ctEq_snd_eq

/-- Concrete evaluation of claim C3: the verifier accepts the keyed hash of
the canonical string, and two comparisons of same-length inputs with
different first-difference positions take the same time. -/
theorem C3_witness :
    (verifySignature macModel "sec" 300 0
        { body := "b", signatureHeader := some "sec|v0:0:b", timestampHeader := some 0 } =
      .valid ↔
      "sec|v0:0:b" = macModel "sec" (schemeVersion ++ ":" ++ toString (0 : Int) ++ ":" ++ "b")) ∧
    (ctEq "xbcd".data "abcd".data).snd = (ctEq "abcx".data "abcd".data).snd := by
  refine ⟨C3_hmac_canonical_and_constant_time.1 macModel "sec" 300 0 0 "sec|v0:0:b" "b"
    (by decide), C3_hmac_canonical_and_constant_time.2 "xbcd".data "abcd".data
    "abcx".data "abcd".data (by decide) (by decide)⟩

/-- Claim C4: for every request with a valid signature, a timestamp within
skew and a recognized actionable event kind, the gateway invokes the
backend exactly once with no automatic retries: every single request causes
at most one invocation, a verified actionable first delivery causes exactly
one, and a second verified delivery carrying the same event identifier
within the dedup window causes zero further invocations, so two such
deliveries result in exactly one invocation in total. -/
theorem C4_forward_exactly_once_with_dedup :
    (∀ (mac : String → String → String) (parse : String → Option SlackEvent)
      (invoke : String → ForwardResult) (cfg : GatewayConfig)
      (secret : Option String) (now : Int) (seen : List String)
      (req : InboundRequest),
      (handleRequest mac parse invoke cfg secret now seen req).snd.snd ≤ 1) ∧
    (∀ (mac : String → String → String) (parse : String → Option SlackEvent)
      (invoke : String → ForwardResult) (cfg : GatewayConfig) (s : String)
      (now now2 : Int) (seen : List String) (req req2 : InboundRequest)
      (eventId payload payload2 : String),
      verifySignature mac s cfg.maxSkewSeconds now req = .valid →
      parse req.body = some (.actionable eventId payload) →
      eventId ∉ seen →
      verifySignature mac s cfg.maxSkewSeconds now2 req2 = .valid →
      parse req2.body = some (.actionable eventId payload2) →
      (handleRequest mac parse invoke cfg (some s) now seen req).snd.snd = 1 ∧
      (handleRequest mac parse invoke cfg (some s) now2
          (handleRequest mac parse invoke cfg (some s) now seen req).snd.fst
          req2).snd.snd = 0) := by
  constructor
  · intro mac parse invoke cfg secret now seen req
    cases secret with
    | none => exact Nat.zero_le 1
    | some s =>
      cases hv : verifySignature mac s cfg.maxSkewSeconds now req with
      | valid =>
        cases hr : routeEvent parse seen req.body with
        | respondChallenge token => simp [handleRequest, hv, hr]
        | forward eventId payload => simp [handleRequest, hv, hr]
        | ignore => simp [handleRequest, hv, hr]
        | duplicate => simp [handleRequest, hv, hr]
        | malformedPayload => simp [handleRequest, hv, hr]
      | invalidSignature => simp [handleRequest, hv]
      | staleRequest => simp [handleRequest, hv]
      | malformedRequest => simp [handleRequest, hv]
  · intro mac parse invoke cfg s now now2 seen req req2 eventId payload payload2
      hv hp hnotin hv2 hp2
    have h1 := handleRequest_forward mac parse invoke cfg s now seen req eventId
      payload hv hp hnotin
    constructor
    · rw [h1]
    · have hseen : eventId ∈
          (handleRequest mac parse invoke cfg (some s) now seen req).snd.fst := by
        rw [h1]
        exact List.mem_cons_self _ _
      rw [handleRequest_duplicate mac parse invoke cfg s now2 _ req2 eventId
        payload2 hv2 hp2 hseen]

/-- Concrete evaluation of claim C4: a correctly signed mention event is
forwarded once, and redelivering the same event identifier afterwards is
not forwarded again. -/
theorem C4_witness :
    (handleRequest macModel parseModel invokeModel defaultGatewayConfig (some "sec") 0 []
        { body := "mention", signatureHeader := some "sec|v0:0:mention",
          timestampHeader := some 0 }).snd.snd = 1 ∧
    (handleRequest macModel parseModel invokeModel defaultGatewayConfig (some "sec") 0
        (handleRequest macModel parseModel invokeModel defaultGatewayConfig (some "sec") 0 []
          { body := "mention", signatureHeader := some "sec|v0:0:mention",
            timestampHeader := some 0 }).snd.fst
        { body := "mention", signatureHeader := some "sec|v0:0:mention",
          timestampHeader := some 0 }).snd.snd = 0 :=
  C4_forward_exactly_once_with_dedup.2 macModel parseModel invokeModel
    defaultGatewayConfig "sec" 0 0 []
    { body := "mention", signatureHeader := some "sec|v0:0:mention",
      timestampHeader := some 0 }
    { body := "mention", signatureHeader := some "sec|v0:0:mention",
      timestampHeader := some 0 }
    "Ev1" "hello" "hello" (by decide) (by decide) (by decide) (by decide) (by decide)

/-- Claim C5: a verified handshake challenge event is answered with exactly
the challenge token embedded in the request, with HTTP 200, and the backend
runtime is invoked zero times while handling that request. -/
theorem C5_challenge_echo_no_backend :
    ∀ (mac : String → String → String) (parse : String → Option SlackEvent)
      (invoke : String → ForwardResult) (cfg : GatewayConfig) (s : String)
      (now : Int) (seen : List String) (req : InboundRequest) (token : String),
      verifySignature mac s cfg.maxSkewSeconds now req = .valid →
      parse req.body = some (.challenge token) →
      (handleRequest mac parse invoke cfg (some s) now seen req).fst.body = token ∧
      (handleRequest mac parse invoke cfg (some s) now seen req).fst.status = 200 ∧
      (handleRequest mac parse invoke cfg (some s) now seen req).snd.snd = 0 := by
  intro mac parse invoke cfg s now seen req token hv hp
  rw [handleRequest_challenge mac parse invoke cfg s now seen req token hv hp]
  exact ⟨rfl, rfl, rfl⟩

/-- Concrete evaluation of claim C5: a correctly signed handshake request
is answered with its token and zero invocations. -/
theorem C5_witness :
    (handleRequest macModel parseModel invokeModel defaultGatewayConfig (some "sec") 0 []
        { body := "url_verification",
          signatureHeader := some "sec|v0:0:url_verification",
          timestampHeader := some 0 }).fst.body = "tok123" ∧
    (handleRequest macModel parseModel invokeModel defaultGatewayConfig (some "sec") 0 []
        { body := "url_verification",
          signatureHeader := some "sec|v0:0:url_verification",
          timestampHeader := some 0 }).fst.status = 200 ∧
    (handleRequest macModel parseModel invokeModel defaultGatewayConfig (some "sec") 0 []
        { body := "url_verification",
          signatureHeader := some "sec|v0:0:url_verification",
          timestampHeader := some 0 }).snd.snd = 0 :=
  C5_challenge_echo_no_backend macModel parseModel invokeModel defaultGatewayConfig
    "sec" 0 []
    { body := "url_verification", signatureHeader := some "sec|v0:0:url_verification",
      timestampHeader := some 0 }
    "tok123" (by decide) (by decide)

end SlackGateway

namespace SlackGateway

/-- Claim C6: the HTTP status is a total function of the classification.
Every successfully classified outcome, including ignorable events,
duplicate deliveries and handshake challenges, gets HTTP 200; the
verification failures InvalidSignature, StaleRequest and MalformedRequest
get HTTP 4xx, and the absence of the signature header or of the timestamp
header fails closed as MalformedRequest with HTTP 400; admission-control
rejection gets HTTP 503; and 5xx statuses occur only for unexpected
internal faults, the secret-retrieval dependency failure, surfaced with a
status distinct from the authentication failure, and the admission
rejection itself. -/
theorem C6_status_total_function_of_classification :
    (statusOf .acknowledged = 200 ∧ (∀ t, statusOf (.challengeEcho t) = 200) ∧
      statusOf .ignorable = 200 ∧ statusOf .duplicateDelivery = 200) ∧
    (statusOf .invalidSignature = 401 ∧ statusOf .staleRequest = 401 ∧
      statusOf .malformedRequest = 400) ∧
    (∀ o, (o = Outcome.invalidSignature ∨ o = Outcome.staleRequest ∨
      o = Outcome.malformedRequest) → 400 ≤ statusOf o ∧ statusOf o < 500) ∧
    (∀ (mac : String → String → String) (parse : String → Option SlackEvent)
      (invoke : String → ForwardResult) (cfg : GatewayConfig) (s : String)
      (now : Int) (seen : List String) (req : InboundRequest),
      (req.signatureHeader = none ∨ req.timestampHeader = none) →
      verifySignature mac s cfg.maxSkewSeconds now req = .malformedRequest ∧
      (handleRequest mac parse invoke cfg (some s) now seen req).fst.status = 400) ∧
    statusOf .admissionRejected = 503 ∧
    (∀ (mac : String → String → String) (parse : String → Option SlackEvent)
      (invoke : String → ForwardResult) (cfg : GatewayConfig)
      (now : Int) (seen : List String) (req : InboundRequest),
      (handleRequest mac parse invoke cfg none now seen req).fst.status =
        statusOf .secretUnavailable) ∧
    statusOf .secretUnavailable ≠ statusOf .invalidSignature ∧
    (∀ o, 500 ≤ statusOf o →
      o = Outcome.internalError ∨ o = Outcome.secretUnavailable ∨
        o = Outcome.admissionRejected) := by
  refine ⟨⟨rfl, fun t => rfl, rfl, rfl⟩, ⟨rfl, rfl, rfl⟩, ?_, ?_, rfl, ?_, by decide, ?_⟩
  · intro o h
    rcases h with h | h | h <;> subst h <;> exact ⟨by decide, by decide⟩
  · intro mac parse invoke cfg s now seen req h
    have hv : verifySignature mac s cfg.maxSkewSeconds now req = .malformedRequest := by
      rcases h with h | h
      · exact verifySignature_no_signature mac s cfg.maxSkewSeconds now req h
      · exact verifySignature_no_timestamp mac s cfg.maxSkewSeconds now req h
    refine ⟨hv, ?_⟩
    rw [handleRequest_malformed mac parse invoke cfg s now seen req hv]
    rfl
  · intro mac parse invoke cfg now seen req
    rw [handleRequest_secret_none mac parse invoke cfg now seen req]
    rfl
  · intro o h
    cases o with
    | acknowledged => simp [statusOf] at h
    | challengeEcho t => simp [statusOf] at h
    | ignorable => simp [statusOf] at h
    | duplicateDelivery => simp [statusOf] at h
    | invalidSignature => simp [statusOf] at h
    | staleRequest => simp [statusOf] at h
    | malformedRequest => simp [statusOf] at h
    | malformedPayload => simp [statusOf] at h
    | secretUnavailable => exact Or.inr (Or.inl rfl)
    | admissionRejected => exact Or.inr (Or.inr rfl)
    | internalError => exact Or.inl rfl

/-- Concrete evaluation of claim C6: a request without a signature header
fails closed as MalformedRequest with status 400. -/
theorem C6_witness :
    verifySignature macModel "sec" defaultGatewayConfig.maxSkewSeconds 0
        { body := "b", signatureHeader := none, timestampHeader := some 0 } =
      .malformedRequest ∧
    (handleRequest macModel parseModel invokeModel defaultGatewayConfig (some "sec") 0 []
        { body := "b", signatureHeader := none,
          timestampHeader := some 0 }).fst.status = 400 :=
  C6_status_total_function_of_classification.2.2.2.1 macModel parseModel invokeModel
    defaultGatewayConfig "sec" 0 []
    { body := "b", signatureHeader := none, timestampHeader := some 0 }
    (Or.inl rfl)

/-- Claim C7: the deployed handler reserves a concurrency of 10 in
cdk/lib/lambda-stack.ts, and under the admission-control semantics with
that ceiling the number of in-flight requests never exceeds 10 along any
trace of arrivals and completions, while a request arriving when 10 are in
flight is rejected immediately, leaving the in-flight and admitted counts
unchanged, rather than queued. -/
theorem C7_concurrency_ceiling (arn : String) :
    (LambdaStack.slackEventsHandler arn).reservedConcurrentExecutions = 10 ∧
    (∀ tr : List AdmEvent,
      (admRun (LambdaStack.slackEventsHandler arn).reservedConcurrentExecutions
          admInit tr).inFlight ≤ 10) ∧
    (∀ s : AdmState,
      s.inFlight = (LambdaStack.slackEventsHandler arn).reservedConcurrentExecutions →
      admStep (LambdaStack.slackEventsHandler arn).reservedConcurrentExecutions s
          AdmEvent.arrive = { s with rejected := s.rejected + 1 }) := by
  refine ⟨rfl, ?_, ?_⟩
  · intro tr
    exact admRun_inFlight_le 10 tr admInit (by decide)
  · intro s h
    simp only [admStep]
    rw [if_neg (by omega)]

/-- Concrete evaluation of claim C7: a short trace stays within the
ceiling, and an arrival at a full ceiling of 10 only increments the
rejection counter. -/
theorem C7_witness :
    (admRun 10 admInit [AdmEvent.arrive, AdmEvent.arrive]).inFlight ≤ 10 ∧
    admStep 10 { inFlight := 10, admitted := 10, rejected := 0 } AdmEvent.arrive =
      { inFlight := 10, admitted := 10, rejected := 1 } := by
  have h := C7_concurrency_ceiling "arn"
  exact ⟨h.2.1 [AdmEvent.arrive, AdmEvent.arrive],
    h.2.2 { inFlight := 10, admitted := 10, rejected := 0 } rfl⟩

/-- Claim C8: the Runtime Forwarder enforces its own timeout of 85000 ms,
strictly less than the 90 second gateway deadline configured in
cdk/lib/lambda-stack.ts; for every backend delay the elapsed forwarding
time never exceeds the sub-timeout, a backend slower than the sub-timeout
yields a timeout classification exactly at the sub-timeout, and with any
response overhead bounded by epsilon the gateway answers no later than the
sub-timeout plus epsilon, never hanging past its own deadline. -/
theorem C8_forwarder_subtimeout (arn : String) :
    defaultGatewayConfig.forwardTimeoutMs = 85000 ∧
    (LambdaStack.slackEventsHandler arn).timeoutSeconds = 90 ∧
    defaultGatewayConfig.forwardTimeoutMs <
      (LambdaStack.slackEventsHandler arn).timeoutSeconds * 1000 ∧
    (∀ (t d : Nat) (r : ForwardResult), (forwardWithTimeout t d r).snd ≤ t) ∧
    (∀ (t d : Nat) (r : ForwardResult), t < d →
      forwardWithTimeout t d r = (ForwardResult.backendTimeout, t)) ∧
    (∀ (d eps overhead : Nat) (r : ForwardResult), overhead ≤ eps →
      (forwardWithTimeout defaultGatewayConfig.forwardTimeoutMs d r).snd + overhead ≤
        defaultGatewayConfig.forwardTimeoutMs + eps) := by
  refine ⟨rfl, rfl, ?_, ?_, ?_, ?_⟩
  · show (85000 : Nat) < 90 * 1000
    decide
  · intro t d r
    unfold forwardWithTimeout
    by_cases hd : d ≤ t
    · rw [if_pos hd]
      exact hd
    · rw [if_neg hd]
  · intro t d r h
    unfold forwardWithTimeout
    rw [if_neg (by omega)]
  · intro d eps overhead r h
    have h2 : (forwardWithTimeout defaultGatewayConfig.forwardTimeoutMs d r).snd ≤
        defaultGatewayConfig.forwardTimeoutMs := by
      unfold forwardWithTimeout
      by_cases hd : d ≤ defaultGatewayConfig.forwardTimeoutMs
      · rw [if_pos hd]
        exact hd
      · rw [if_neg hd]
    omega

/-- Concrete evaluation of claim C8: a backend answering in 1 ms stays
within budget, a backend needing 7 ms against a 5 ms budget is classified
as a timeout at 5 ms, and a 2 ms overhead below an epsilon of 3 ms keeps
the total under the sub-timeout plus epsilon. -/
theorem C8_witness :
    (forwardWithTimeout 85000 1 (ForwardResult.success "r")).snd ≤ 85000 ∧
    forwardWithTimeout 5 7 (ForwardResult.success "r") =
      (ForwardResult.backendTimeout, 5) ∧
    (forwardWithTimeout defaultGatewayConfig.forwardTimeoutMs 1
        (ForwardResult.success "r")).snd + 2 ≤
      defaultGatewayConfig.forwardTimeoutMs + 3 := by
  have h := C8_forwarder_subtimeout "arn"
  exact ⟨h.2.2.2.1 85000 1 (ForwardResult.success "r"),
    h.2.2.2.2.1 5 7 (ForwardResult.success "r") (by decide),
    h.2.2.2.2.2 1 3 2 (ForwardResult.success "r") (by decide)⟩

/-- Claim C9: the deployed inbound endpoint performs no transport-layer
authentication: the Lambda function URL of cdk/lib/lambda-stack.ts uses
auth type NONE with CORS allowing only the POST method and only the
Content-Type, x-slack-signature and x-slack-request-timestamp headers, from
any origin, so request authentication rests entirely on the
application-layer signature verification. -/
theorem C9_function_url_no_transport_auth :
    LambdaStack.functionUrl.authType = "NONE" ∧
    LambdaStack.functionUrl.cors.allowedMethods = ["POST"] ∧
    LambdaStack.functionUrl.cors.allowedHeaders =
      ["Content-Type", "x-slack-signature", "x-slack-request-timestamp"] ∧
    LambdaStack.functionUrl.cors.allowedOrigins = ["*"] :=
  ⟨rfl, rfl, rfl, rfl⟩

/-- Claim C10: the gateway process is started with no secret material in
its configuration: its environment in cdk/lib/lambda-stack.ts is exactly
the AGENTCORE_RUNTIME_ARN and LOG_LEVEL variables, with no signing secret
or token; the SSM read permission of the execution role is restricted to
the slack-issue-agent parameter path, and KMS decryption is allowed only
via the SSM service of the region. -/
theorem C10_no_secret_in_environment (region account arn : String) :
    (LambdaStack.slackEventsHandler arn).environment =
      [("AGENTCORE_RUNTIME_ARN", arn), ("LOG_LEVEL", "INFO")] ∧
    ((LambdaStack.slackEventsHandler arn).environment.map Prod.fst) =
      ["AGENTCORE_RUNTIME_ARN", "LOG_LEVEL"] ∧
    (LambdaStack.ssmPolicy region account).actions =
      ["ssm:GetParameter", "ssm:GetParameters"] ∧
    (LambdaStack.ssmPolicy region account).resources =
      ["arn:aws:ssm:" ++ region ++ ":" ++ account ++
        ":parameter/slack-issue-agent/*"] ∧
    (LambdaStack.kmsPolicy region account).actions = ["kms:Decrypt"] ∧
    (LambdaStack.kmsPolicy region account).stringEqualsConditions =
      [("kms:ViaService", "ssm." ++ region ++ ".amazonaws.com")] ∧
    LambdaStack.lambdaRolePolicies region account arn =
      [LambdaStack.agentCorePolicy arn, LambdaStack.ssmPolicy region account,
        LambdaStack.kmsPolicy region account] :=
  ⟨rfl, rfl, rfl, rfl, rfl, rfl, rfl⟩

end SlackGateway
